import Mathlib

/-!
Shallow embedding of the PumpHouseBoss test-harness core.

Source files embedded:
* `src/variants/phb-test/components/phb-test/phb-test.h` — the `phb_test`
  singleton: per-index binding arrays (`_InputArray`, `_OutputArray`,
  `_DutyCycleArray`, `_FrequencyArray`, `_SwitchArray`), the `_Initialized`
  flag, `setup`, `mGet`, and the eight indexed accessors.
* `src/components/esp32bootcode/esp32bootcode.h` — `mGetBootReason`.

Modelling conventions:
* `DEF_TEST_POINTS` is a build-time constant; it appears as the parameter `N`.
* C++ `int` indices are `Int`; array access at a non-negative index uses
  `Int.toNat`.
* C++ `float` values (frequency, duty cycle) are modelled as `ℚ`; the only
  arithmetic the source performs on them is `duty_cycle / 100.0f`, modelled
  as exact division by 100.
* Each binding array slot holds either `nullptr` or a pointer to the
  statically named per-index object; a `Bool` flag per array records whether
  the slot is bound, and the pointed-to object's state is stored alongside.
* Accessors return `Option` results: `none` models a dereference of an
  unbound (`nullptr`) slot, i.e. undefined behaviour; `some` is a normal
  return.  Mutators additionally return the list of commands they issued to
  the LEDC output driver, in order, so that ordering claims are statable.
* Logging (`ESP_LOGE`/`ESP_LOGI`) has no modelled effect.
-/

namespace PhbTest

/-- State of one `esphome::ledc::LEDCOutput` PWM driver as far as the embedded
code drives it: commanded on/off, last applied frequency, last applied level. -/
structure LEDC where
  isOn : Bool
  freqHz : ℚ
  level : ℚ
deriving DecidableEq

/-- `LEDCOutput::turn_on()` as observed state change. -/
def LEDC.turn_on (o : LEDC) : LEDC := { o with isOn := true }

/-- `LEDCOutput::turn_off()` as observed state change. -/
def LEDC.turn_off (o : LEDC) : LEDC := { o with isOn := false }

/-- `LEDCOutput::update_frequency(f)` as observed state change. -/
def LEDC.update_frequency (o : LEDC) (f : ℚ) : LEDC := { o with freqHz := f }

/-- `LEDCOutput::set_level(l)` as observed state change. -/
def LEDC.set_level (o : LEDC) (l : ℚ) : LEDC := { o with level := l }

/-- One index slot of the five binding arrays of `phb_test`, together with the
state of the objects the bound pointers refer to.  A `…Bound` flag is `false`
exactly when the corresponding array slot still holds `nullptr`. -/
structure TP where
  inputBound : Bool
  outputBound : Bool
  dutyBound : Bool
  freqBound : Bool
  swBound : Bool
  inputState : Bool
  swState : Bool
  dutyVal : ℚ
  freqVal : ℚ
  ledc : LEDC
deriving DecidableEq

/-- The five binding-pointer slots of one index, as a tuple. -/
def TP.flags (t : TP) : Bool × Bool × Bool × Bool × Bool :=
  (t.inputBound, t.outputBound, t.dutyBound, t.freqBound, t.swBound)

/-- All five binding pointers of one index are non-null. -/
def TP.allBound (t : TP) : Bool :=
  t.inputBound && t.outputBound && t.dutyBound && t.freqBound && t.swBound

/-- State of the `phb_test` singleton: the binding table (all five arrays and
the pointed-to object states, one `TP` per index) and `_Initialized`. -/
structure Phb where
  tp : Nat → TP
  initialized : Bool

/-- A default-constructed `phb_test` instance: every array slot `nullptr`
(`= {nullptr}` member initialisers), `_Initialized = false`.  The pointed-to
object states are given neutral defaults; they are irrelevant while unbound. -/
def Phb.init : Phb :=
  { tp := fun _ =>
      { inputBound := false, outputBound := false, dutyBound := false,
        freqBound := false, swBound := false,
        inputState := false, swState := false,
        dutyVal := 0, freqVal := 0,
        ledc := { isOn := false, freqHz := 0, level := 0 } },
    initialized := false }

/-- A command sent to a bound LEDC output driver, recorded in issue order. -/
inductive OutCmd where
  | turnOn : OutCmd
  | turnOff : OutCmd
  | updFreq (f : ℚ) : OutCmd
  | setLevel (l : ℚ) : OutCmd
deriving DecidableEq

/-- The externally constructed per-index objects (`inputTPi`, `switchTPi`,
`numTPiDutyCycle`, `numTPiFrequency`, `outputTPi`) that `setup` binds:
their states at binding time. -/
structure ExtTP where
  inputState : Bool
  swState : Bool
  dutyVal : ℚ
  freqVal : ℚ
  ledc : LEDC

/-- Binding one index: all five pointers set (non-null), referring to the
externally constructed objects with their current states. -/
def bindTP (e : ExtTP) : TP :=
  { inputBound := true, outputBound := true, dutyBound := true,
    freqBound := true, swBound := true,
    inputState := e.inputState, swState := e.swState,
    dutyVal := e.dutyVal, freqVal := e.freqVal, ledc := e.ledc }

/-- `phb_test::setup()`: early-returns if `_Initialized`; otherwise the loop
`for i in [0, N)` binds all five arrays at index `i` in its `case 0`–`case 7`
arms (so exactly the indices `i < N` with `i < 8`), `case 8` only logs, and
finally `_Initialized = true`. -/
def setup (N : Nat) (ext : Nat → ExtTP) (s : Phb) : Phb :=
  if s.initialized then s
  else
    { tp := fun j => if j < N ∧ j < 8 then bindTP (ext j) else s.tp j,
      initialized := true }

/-- `phb_test::mGet()`: if the instance is not `_Initialized`, runs `setup()`
and sets `_Initialized = true` (redundantly, `setup` already did); returns
the instance. -/
def mGet (N : Nat) (ext : Nat → ExtTP) (s : Phb) : Phb :=
  if s.initialized then s
  else { setup N ext s with initialized := true }

/-- Writing one slot of the binding table: `tbl[i] = t` with every other
slot unchanged. -/
def Phb.setTP (s : Phb) (i : Nat) (t : TP) : Phb :=
  { s with tp := Function.update s.tp i t }

/-- `phb_test::mIsEnabled(idx)`: range check returning `false`, then an
unguarded read of `_SwitchArray[idx]->state`. -/
def mIsEnabled (N : Nat) (s : Phb) (idx : Int) : Option Bool :=
  if idx < 0 ∨ (N : Int) ≤ idx then some false
  else if (s.tp idx.toNat).swBound then some (s.tp idx.toNat).swState
  else none

/-- `phb_test::mGetInputState(idx)`: range check returning `false`, then an
unguarded read of `_InputArray[idx]->state`. -/
def mGetInputState (N : Nat) (s : Phb) (idx : Int) : Option Bool :=
  if idx < 0 ∨ (N : Int) ≤ idx then some false
  else if (s.tp idx.toNat).inputBound then some (s.tp idx.toNat).inputState
  else none

/-- `phb_test::mGetFrequency(idx)`: range check returning `0.0f`, then an
unguarded read of `_FrequencyArray[idx]->state`. -/
def mGetFrequency (N : Nat) (s : Phb) (idx : Int) : Option ℚ :=
  if idx < 0 ∨ (N : Int) ≤ idx then some 0
  else if (s.tp idx.toNat).freqBound then some (s.tp idx.toNat).freqVal
  else none

/-- `phb_test::mGetDutyCycle(idx)`: range check returning `0.0f`, then an
unguarded read of `_DutyCycleArray[idx]->state`. -/
def mGetDutyCycle (N : Nat) (s : Phb) (idx : Int) : Option ℚ :=
  if idx < 0 ∨ (N : Int) ≤ idx then some 0
  else if (s.tp idx.toNat).dutyBound then some (s.tp idx.toNat).dutyVal
  else none

/-- `phb_test::mTPEnable(idx)`: range check (no-op), then
`_OutputArray[idx]->turn_on(); _OutputArray[idx]->update_frequency(
_FrequencyArray[idx]->state); _OutputArray[idx]->set_level(
_DutyCycleArray[idx]->state / 100.0f)`.  It does not touch
`_SwitchArray[idx]`.  Dereferences the output, frequency and duty-cycle
slots. -/
def mTPEnable (N : Nat) (s : Phb) (idx : Int) : Option (Phb × List OutCmd) :=
  if idx < 0 ∨ (N : Int) ≤ idx then some (s, [])
  else if (s.tp idx.toNat).outputBound ∧ (s.tp idx.toNat).freqBound ∧
          (s.tp idx.toNat).dutyBound then
    some (s.setTP idx.toNat
            { s.tp idx.toNat with
              ledc := LEDC.set_level
                (LEDC.update_frequency (LEDC.turn_on (s.tp idx.toNat).ledc)
                  (s.tp idx.toNat).freqVal)
                ((s.tp idx.toNat).dutyVal / 100) },
          [OutCmd.turnOn, OutCmd.updFreq (s.tp idx.toNat).freqVal,
           OutCmd.setLevel ((s.tp idx.toNat).dutyVal / 100)])
  else none

/-- `phb_test::mTPDisable(idx)`: range check (no-op), then
`_OutputArray[idx]->turn_off()`.  It does not touch `_SwitchArray[idx]`. -/
def mTPDisable (N : Nat) (s : Phb) (idx : Int) : Option (Phb × List OutCmd) :=
  if idx < 0 ∨ (N : Int) ≤ idx then some (s, [])
  else if (s.tp idx.toNat).outputBound then
    some (s.setTP idx.toNat
            { s.tp idx.toNat with
              ledc := LEDC.turn_off (s.tp idx.toNat).ledc },
          [OutCmd.turnOff])
  else none

/-- `phb_test::mSetFrequency(idx, frequency)`: range check (no-op), then
`_FrequencyArray[idx]->publish_state(frequency)`, then, only if
`_SwitchArray[idx]->state`, `_OutputArray[idx]->update_frequency(frequency)`. -/
def mSetFrequency (N : Nat) (s : Phb) (idx : Int) (frequency : ℚ) :
    Option (Phb × List OutCmd) :=
  if idx < 0 ∨ (N : Int) ≤ idx then some (s, [])
  else if (s.tp idx.toNat).freqBound then
    if (s.tp idx.toNat).swBound then
      if (s.tp idx.toNat).swState then
        if (s.tp idx.toNat).outputBound then
          some (s.setTP idx.toNat
                  { s.tp idx.toNat with
                    freqVal := frequency,
                    ledc := LEDC.update_frequency (s.tp idx.toNat).ledc
                      frequency },
                [OutCmd.updFreq frequency])
        else none
      else
        some (s.setTP idx.toNat
                { s.tp idx.toNat with freqVal := frequency }, [])
    else none
  else none

/-- `phb_test::mSetDutyCycle(idx, duty_cycle)`: range check (no-op), a log
line, then, only if `_SwitchArray[idx]->state`,
`_OutputArray[idx]->set_level(duty_cycle / 100.0f)`.  Note that unlike
`mSetFrequency` it never calls `publish_state` on `_DutyCycleArray[idx]`,
so the stored duty-cycle value is not updated. -/
def mSetDutyCycle (N : Nat) (s : Phb) (idx : Int) (duty_cycle : ℚ) :
    Option (Phb × List OutCmd) :=
  if idx < 0 ∨ (N : Int) ≤ idx then some (s, [])
  else if (s.tp idx.toNat).swBound then
    if (s.tp idx.toNat).swState then
      if (s.tp idx.toNat).outputBound then
        some (s.setTP idx.toNat
                { s.tp idx.toNat with
                  ledc := LEDC.set_level (s.tp idx.toNat).ledc
                    (duty_cycle / 100) },
              [OutCmd.setLevel (duty_cycle / 100)])
      else none
    else some (s, [])
  else none

/-- One invocation of a public operation of the registry, for reachability
statements. -/
inductive Op where
  | opIsEnabled (idx : Int) : Op
  | opEnable (idx : Int) : Op
  | opDisable (idx : Int) : Op
  | opGetFrequency (idx : Int) : Op
  | opSetFrequency (idx : Int) (v : ℚ) : Op
  | opGetDutyCycle (idx : Int) : Op
  | opSetDutyCycle (idx : Int) (v : ℚ) : Op
  | opGetInputState (idx : Int) : Op
  | opGet : Op

/-- Effect of one public operation on the singleton state (`none` = the
operation dereferenced an unbound slot). -/
def step (N : Nat) (ext : Nat → ExtTP) (s : Phb) : Op → Option Phb
  | Op.opIsEnabled idx => (mIsEnabled N s idx).map fun _ => s
  | Op.opEnable idx => (mTPEnable N s idx).map Prod.fst
  | Op.opDisable idx => (mTPDisable N s idx).map Prod.fst
  | Op.opGetFrequency idx => (mGetFrequency N s idx).map fun _ => s
  | Op.opSetFrequency idx v => (mSetFrequency N s idx v).map Prod.fst
  | Op.opGetDutyCycle idx => (mGetDutyCycle N s idx).map fun _ => s
  | Op.opSetDutyCycle idx v => (mSetDutyCycle N s idx v).map Prod.fst
  | Op.opGetInputState idx => (mGetInputState N s idx).map fun _ => s
  | Op.opGet => some (mGet N ext s)

/-- A sequence of public operations, run left to right. -/
def run (N : Nat) (ext : Nat → ExtTP) : List Op → Phb → Option Phb
  | [], s => some s
  | op :: ops, s => (step N ext s op).bind (run N ext ops)

/-- A concrete external-object configuration: every switch off, all numeric
states zero. -/
def extOff : Nat → ExtTP := fun _ =>
  { inputState := false, swState := false, dutyVal := 0, freqVal := 0,
    ledc := { isOn := false, freqHz := 0, level := 0 } }

/-- A concrete external-object configuration: every switch on, duty cycle 25,
frequency 500. -/
def extOn : Nat → ExtTP := fun _ =>
  { inputState := false, swState := true, dutyVal := 25, freqVal := 500,
    ledc := { isOn := false, freqHz := 0, level := 0 } }

/-- `BootCode::mGetBootReason()` from `esp32bootcode.h`, as a function of the
`esp_reset_reason_t` code (a C enum, modelled by its ESP-IDF integer values:
`ESP_RST_POWERON = 1` … `ESP_RST_SDIO = 10`; `ESP_RST_UNKNOWN = 0` and every
other value fall through to the `default` arm). -/
def mGetBootReason (reason : Int) : String :=
  if reason = 1 then "Power On Reset"
  else if reason = 2 then "External System Reset"
  else if reason = 3 then "Software Reset"
  else if reason = 4 then "Exception/Panic"
  else if reason = 5 then "Interrupt Watchdog"
  else if reason = 6 then "Task Watchdog"
  else if reason = 7 then "Other Watchdog"
  else if reason = 8 then "Deep Sleep Reset"
  else if reason = 9 then "Brownout Reset"
  else if reason = 10 then "SDIO Reset"
  else "Unknown"

/-- The eleven strings `mGetBootReason` can produce. -/
def bootStrings : List String :=
  ["Power On Reset", "External System Reset", "Software Reset",
   "Exception/Panic", "Interrupt Watchdog", "Task Watchdog",
   "Other Watchdog", "Deep Sleep Reset", "Brownout Reset", "SDIO Reset",
   "Unknown"]

/-! ## Helper lemmas -/

theorem setTP_tp_same (s : Phb) (i : Nat) (t : TP) : (s.setTP i t).tp i = t := by
  simp [Phb.setTP]

theorem setTP_tp_other (s : Phb) (i j : Nat) (t : TP) (h : j ≠ i) :
    (s.setTP i t).tp j = s.tp j := by
  simp [Phb.setTP, Function.update_noteq h]

theorem setTP_initialized (s : Phb) (i : Nat) (t : TP) :
    (s.setTP i t).initialized = s.initialized := rfl

theorem setTP_flags (s : Phb) (i : Nat) (t : TP)
    (hf : t.flags = (s.tp i).flags) (j : Nat) :
    ((s.setTP i t).tp j).flags = (s.tp j).flags := by
  rcases eq_or_ne j i with rfl | hj
  · rw [setTP_tp_same, hf]
  · rw [setTP_tp_other _ _ _ _ hj]

theorem allBound_congr (t₁ t₂ : TP) (h : t₁.flags = t₂.flags) :
    t₁.allBound = t₂.allBound := by
  simp only [TP.flags, Prod.mk.injEq] at h
  obtain ⟨h1, h2, h3, h4, h5⟩ := h
  simp [TP.allBound, h1, h2, h3, h4, h5]

theorem setup_initialized (N : Nat) (ext : Nat → ExtTP) (s : Phb) :
    (setup N ext s).initialized = true := by
  unfold setup
  split_ifs with h
  · exact h
  · rfl

theorem mGet_initialized (N : Nat) (ext : Nat → ExtTP) (s : Phb) :
    (mGet N ext s).initialized = true := by
  unfold mGet
  split_ifs with h
  · exact h
  · rfl

theorem setup_of_initialized (N : Nat) (ext : Nat → ExtTP) (s : Phb)
    (h : s.initialized = true) : setup N ext s = s := by
  unfold setup
  rw [if_pos h]

theorem mGet_of_initialized (N : Nat) (ext : Nat → ExtTP) (s : Phb)
    (h : s.initialized = true) : mGet N ext s = s := by
  unfold mGet
  rw [if_pos h]

theorem mGet_init_tp (N : Nat) (ext : Nat → ExtTP) (j : Nat) :
    (mGet N ext Phb.init).tp j =
      if j < N ∧ j < 8 then bindTP (ext j) else Phb.init.tp j := by
  rfl

theorem mGet_init_allBound (N : Nat) (ext : Nat → ExtTP) (hN : N ≤ 8)
    (i : Nat) (hi : i < N) : ((mGet N ext Phb.init).tp i).allBound = true := by
  have ht : (mGet N ext Phb.init).tp i = bindTP (ext i) := by
    rw [mGet_init_tp, if_pos ⟨hi, lt_of_lt_of_le hi hN⟩]
  rw [ht]
  rfl

theorem mTPEnable_frame (N : Nat) (s s₂ : Phb) (idx : Int) (tr : List OutCmd)
    (h : mTPEnable N s idx = some (s₂, tr)) :
    s₂.initialized = s.initialized ∧ ∀ j, (s₂.tp j).flags = (s.tp j).flags := by
  unfold mTPEnable at h
  split_ifs at h <;>
    first
      | (simp only [Option.some.injEq, Prod.mk.injEq] at h
         obtain ⟨rfl, rfl⟩ := h
         exact ⟨rfl, fun j => rfl⟩)
      | (simp only [Option.some.injEq, Prod.mk.injEq] at h
         obtain ⟨rfl, rfl⟩ := h
         refine ⟨rfl, fun j => setTP_flags s idx.toNat _ ?_ j⟩
         rfl)
      | exact Option.noConfusion h

theorem mTPDisable_frame (N : Nat) (s s₂ : Phb) (idx : Int) (tr : List OutCmd)
    (h : mTPDisable N s idx = some (s₂, tr)) :
    s₂.initialized = s.initialized ∧ ∀ j, (s₂.tp j).flags = (s.tp j).flags := by
  unfold mTPDisable at h
  split_ifs at h <;>
    first
      | (simp only [Option.some.injEq, Prod.mk.injEq] at h
         obtain ⟨rfl, rfl⟩ := h
         exact ⟨rfl, fun j => rfl⟩)
      | (simp only [Option.some.injEq, Prod.mk.injEq] at h
         obtain ⟨rfl, rfl⟩ := h
         refine ⟨rfl, fun j => setTP_flags s idx.toNat _ ?_ j⟩
         rfl)
      | exact Option.noConfusion h

theorem mSetFrequency_frame (N : Nat) (s s₂ : Phb) (idx : Int) (v : ℚ)
    (tr : List OutCmd) (h : mSetFrequency N s idx v = some (s₂, tr)) :
    s₂.initialized = s.initialized ∧ ∀ j, (s₂.tp j).flags = (s.tp j).flags := by
  unfold mSetFrequency at h
  split_ifs at h <;>
    first
      | (simp only [Option.some.injEq, Prod.mk.injEq] at h
         obtain ⟨rfl, rfl⟩ := h
         exact ⟨rfl, fun j => rfl⟩)
      | (simp only [Option.some.injEq, Prod.mk.injEq] at h
         obtain ⟨rfl, rfl⟩ := h
         refine ⟨rfl, fun j => setTP_flags s idx.toNat _ ?_ j⟩
         rfl)
      | exact Option.noConfusion h

theorem mSetDutyCycle_frame (N : Nat) (s s₂ : Phb) (idx : Int) (v : ℚ)
    (tr : List OutCmd) (h : mSetDutyCycle N s idx v = some (s₂, tr)) :
    s₂.initialized = s.initialized ∧ ∀ j, (s₂.tp j).flags = (s.tp j).flags := by
  unfold mSetDutyCycle at h
  split_ifs at h <;>
    first
      | (simp only [Option.some.injEq, Prod.mk.injEq] at h
         obtain ⟨rfl, rfl⟩ := h
         exact ⟨rfl, fun j => rfl⟩)
      | (simp only [Option.some.injEq, Prod.mk.injEq] at h
         obtain ⟨rfl, rfl⟩ := h
         refine ⟨rfl, fun j => setTP_flags s idx.toNat _ ?_ j⟩
         rfl)
      | exact Option.noConfusion h

theorem step_frame (N : Nat) (ext : Nat → ExtTP) (op : Op) (s s₂ : Phb)
    (hi : s.initialized = true) (h : step N ext s op = some s₂) :
    s₂.initialized = true ∧ ∀ j, (s₂.tp j).flags = (s.tp j).flags := by
  cases op with
  | opIsEnabled idx =>
      unfold step at h
      obtain ⟨b, _, rfl⟩ := Option.map_eq_some'.mp h
      exact ⟨hi, fun j => rfl⟩
  | opEnable idx =>
      unfold step at h
      obtain ⟨⟨s₁, tr⟩, hb, rfl⟩ := Option.map_eq_some'.mp h
      have hfr := mTPEnable_frame N s s₁ idx tr hb
      exact ⟨hfr.1.trans hi, hfr.2⟩
  | opDisable idx =>
      unfold step at h
      obtain ⟨⟨s₁, tr⟩, hb, rfl⟩ := Option.map_eq_some'.mp h
      have hfr := mTPDisable_frame N s s₁ idx tr hb
      exact ⟨hfr.1.trans hi, hfr.2⟩
  | opGetFrequency idx =>
      unfold step at h
      obtain ⟨b, _, rfl⟩ := Option.map_eq_some'.mp h
      exact ⟨hi, fun j => rfl⟩
  | opSetFrequency idx v =>
      unfold step at h
      obtain ⟨⟨s₁, tr⟩, hb, rfl⟩ := Option.map_eq_some'.mp h
      have hfr := mSetFrequency_frame N s s₁ idx v tr hb
      exact ⟨hfr.1.trans hi, hfr.2⟩
  | opGetDutyCycle idx =>
      unfold step at h
      obtain ⟨b, _, rfl⟩ := Option.map_eq_some'.mp h
      exact ⟨hi, fun j => rfl⟩
  | opSetDutyCycle idx v =>
      unfold step at h
      obtain ⟨⟨s₁, tr⟩, hb, rfl⟩ := Option.map_eq_some'.mp h
      have hfr := mSetDutyCycle_frame N s s₁ idx v tr hb
      exact ⟨hfr.1.trans hi, hfr.2⟩
  | opGetInputState idx =>
      unfold step at h
      obtain ⟨b, _, rfl⟩ := Option.map_eq_some'.mp h
      exact ⟨hi, fun j => rfl⟩
  | opGet =>
      unfold step at h
      rw [mGet_of_initialized N ext s hi] at h
      obtain rfl : s = s₂ := Option.some.inj h
      exact ⟨hi, fun j => rfl⟩

theorem run_frame (N : Nat) (ext : Nat → ExtTP) (ops : List Op) :
    ∀ s s₂ : Phb, s.initialized = true → run N ext ops s = some s₂ →
      s₂.initialized = true ∧ ∀ j, (s₂.tp j).flags = (s.tp j).flags := by
  induction ops with
  | nil =>
      intro s s₂ hi h
      obtain rfl : s = s₂ := Option.some.inj h
      exact ⟨hi, fun j => rfl⟩
  | cons op ops ih =>
      intro s s₂ hi h
      simp only [run] at h
      obtain ⟨s₁, h₁, h₂⟩ := Option.bind_eq_some.mp h
      have hs := step_frame N ext op s s₁ hi h₁
      have hr := ih s₁ s₂ hs.1 h₂
      exact ⟨hr.1, fun j => (hr.2 j).trans (hs.2 j)⟩

/-! ## Claims -/

/-- Claim C1: the claim states that `setDutyCycle(idx, v)` updates the bound
duty-cycle parameter so that `getDutyCycle(idx)` returns `v`, whether the
test point is enabled or not.  The code violates this: `mSetDutyCycle` never
calls `publish_state` on `_DutyCycleArray[idx]`, so on a freshly initialized
registry (stored duty cycle 0 when disabled, 25 when enabled in the `extOn`
configuration) a `setDutyCycle(0, 50)` leaves the stored value unchanged and
`getDutyCycle(0)` does not return 50. -/
theorem C1_setDutyCycle_not_stored :
    (mSetDutyCycle 8 (mGet 8 extOff Phb.init) 0 50).map
        (fun p => mGetDutyCycle 8 p.1 0) = some (some 0) ∧
    (mSetDutyCycle 8 (mGet 8 extOn Phb.init) 0 50).map
        (fun p => mGetDutyCycle 8 p.1 0) = some (some 25) ∧
    (mSetDutyCycle 8 (mGet 8 extOff Phb.init) 0 50).map
        (fun p => mGetDutyCycle 8 p.1 0) ≠ some (some 50) ∧
    (mSetDutyCycle 8 (mGet 8 extOn Phb.init) 0 50).map
        (fun p => mGetDutyCycle 8 p.1 0) ≠ some (some 50) := by
  refine ⟨rfl, rfl, ?_, ?_⟩ <;> decide

/-- Claim C2: the claim states that immediately after `enable(idx)`,
`isEnabled(idx)` returns `true`, and after `disable(idx)` it returns `false`.
The code violates this: `mTPEnable`/`mTPDisable` drive only
`_OutputArray[idx]` and never write the `_SwitchArray[idx]->state` that
`mIsEnabled` reads.  With the switch off, `mTPEnable(0)` leaves
`mIsEnabled(0) = false`; with the switch on, `mTPDisable(0)` leaves
`mIsEnabled(0) = true`. -/
theorem C2_enable_leaves_switch_state :
    (mTPEnable 8 (mGet 8 extOff Phb.init) 0).map
        (fun p => mIsEnabled 8 p.1 0) = some (some false) ∧
    (mTPDisable 8 (mGet 8 extOn Phb.init) 0).map
        (fun p => mIsEnabled 8 p.1 0) = some (some true) ∧
    (mTPEnable 8 (mGet 8 extOff Phb.init) 0).map
        (fun p => mIsEnabled 8 p.1 0) ≠ some (some true) ∧
    (mTPDisable 8 (mGet 8 extOn Phb.init) 0).map
        (fun p => mIsEnabled 8 p.1 0) ≠ some (some false) := by
  refine ⟨rfl, rfl, ?_, ?_⟩ <;> decide

/-- Claim C3: the claim states that an index within `[0, N)` whose slot was
never bound is treated exactly like an invalid index (safe default, no
dereference).  The code violates this: every accessor checks only the range
and then dereferences the slot unguarded (its own log text reads
`Invalid index or null pointer` but no null check exists), so on the
default-constructed, never-initialized instance the in-range index 0 leads
to a null-pointer dereference (`none` in this model) while the invalid
index -1 returns the safe default `some false`. -/
theorem C3_unbound_slot_dereferenced :
    mIsEnabled 8 Phb.init 0 = none ∧
    mGetInputState 8 Phb.init 0 = none ∧
    mGetFrequency 8 Phb.init 0 = none ∧
    mGetDutyCycle 8 Phb.init 0 = none ∧
    mIsEnabled 8 Phb.init (-1) = some false ∧
    mGetInputState 8 Phb.init (-1) = some false := by
  refine ⟨rfl, rfl, rfl, rfl, ?_, ?_⟩ <;> decide

/-- Claim C6: for every out-of-range index (`idx < 0` or `idx ≥ N`), every
read accessor returns its safe default (`false` for `mIsEnabled` and
`mGetInputState`, `0.0` for `mGetFrequency` and `mGetDutyCycle`), every
mutator returns with the registry state unchanged and no output-driver
command issued. -/
theorem C6_invalid_index_safe_defaults (N : Nat) (s : Phb) (idx : Int) (v : ℚ)
    (h : idx < 0 ∨ (N : Int) ≤ idx) :
    mIsEnabled N s idx = some false ∧
    mGetInputState N s idx = some false ∧
    mGetFrequency N s idx = some 0 ∧
    mGetDutyCycle N s idx = some 0 ∧
    mTPEnable N s idx = some (s, []) ∧
    mTPDisable N s idx = some (s, []) ∧
    mSetFrequency N s idx v = some (s, []) ∧
    mSetDutyCycle N s idx v = some (s, []) := by
  refine ⟨?_, ?_, ?_, ?_, ?_, ?_, ?_, ?_⟩
  · unfold mIsEnabled; rw [if_pos h]
  · unfold mGetInputState; rw [if_pos h]
  · unfold mGetFrequency; rw [if_pos h]
  · unfold mGetDutyCycle; rw [if_pos h]
  · unfold mTPEnable; rw [if_pos h]
  · unfold mTPDisable; rw [if_pos h]
  · unfold mSetFrequency; rw [if_pos h]
  · unfold mSetDutyCycle; rw [if_pos h]

/-- Witness for C6 at the concrete invalid index `-1` on the
default-constructed state. -/
theorem C6_invalid_index_safe_defaults_witness :
    ((-1 : Int) < 0 ∨ ((8 : Nat) : Int) ≤ (-1 : Int)) ∧
    (mIsEnabled 8 Phb.init (-1) = some false ∧
     mGetInputState 8 Phb.init (-1) = some false ∧
     mGetFrequency 8 Phb.init (-1) = some 0 ∧
     mGetDutyCycle 8 Phb.init (-1) = some 0 ∧
     mTPEnable 8 Phb.init (-1) = some (Phb.init, []) ∧
     mTPDisable 8 Phb.init (-1) = some (Phb.init, []) ∧
     mSetFrequency 8 Phb.init (-1) 7 = some (Phb.init, []) ∧
     mSetDutyCycle 8 Phb.init (-1) 7 = some (Phb.init, [])) :=
  ⟨Or.inl (by decide),
   C6_invalid_index_safe_defaults 8 Phb.init (-1) 7 (Or.inl (by decide))⟩

set_option maxHeartbeats 1600000 in
/-- Claim C9: `mGetBootReason` is a total stateless function from the reset
code to one of eleven fixed strings (ten enumerated causes plus `Unknown`),
pairwise distinct, and every code outside the ten enumerated causes
(`1`–`10`) maps to `Unknown`. -/
theorem C9_boot_reason_total_lookup :
    bootStrings.length = 11 ∧ bootStrings.Nodup ∧
    (∀ c : Int, mGetBootReason c ∈ bootStrings) ∧
    (∀ c : Int, mGetBootReason c = "Unknown" ↔ c < 1 ∨ 10 < c) := by
  refine ⟨by simp [bootStrings], by simp [bootStrings], ?_, ?_⟩
  · intro c
    unfold mGetBootReason
    split_ifs <;> simp [bootStrings]
  · intro c
    unfold mGetBootReason
    split_ifs with h1 h2 h3 h4 h5 h6 h7 h8 h9 h10 <;>
      first
        | exact ⟨fun hstr => absurd hstr (by simp),
                 fun hr => absurd hr (by omega)⟩
        | exact ⟨fun _ => by omega, fun _ => rfl⟩

/-- Claim C4: for every valid index whose output, frequency and duty-cycle
slots are bound, `enable(idx)` issues exactly three commands to the bound
output driver, in order: turn on, apply the stored frequency, apply the
stored duty cycle divided by 100; and the driver ends up on with exactly
those values. -/
theorem C4_enable_effect_order (N : Nat) (s : Phb) (idx : Int)
    (h0 : 0 ≤ idx) (hN : idx < (N : Int))
    (ho : (s.tp idx.toNat).outputBound = true)
    (hf : (s.tp idx.toNat).freqBound = true)
    (hd : (s.tp idx.toNat).dutyBound = true) :
    (mTPEnable N s idx).map Prod.snd =
      some [OutCmd.turnOn, OutCmd.updFreq (s.tp idx.toNat).freqVal,
            OutCmd.setLevel ((s.tp idx.toNat).dutyVal / 100)] ∧
    (mTPEnable N s idx).map (fun p => (p.1.tp idx.toNat).ledc) =
      some { isOn := true, freqHz := (s.tp idx.toNat).freqVal,
             level := (s.tp idx.toNat).dutyVal / 100 } := by
  have hg : ¬ (idx < 0 ∨ (N : Int) ≤ idx) := by omega
  unfold mTPEnable
  rw [if_neg hg, if_pos ⟨ho, hf, hd⟩]
  refine ⟨rfl, ?_⟩
  simp only [Option.map_some', Option.some.injEq]
  rw [setTP_tp_same]
  rfl

/-- Witness for C4 at index 2 of a freshly initialized registry whose
external configuration stores frequency 500 and duty cycle 25. -/
theorem C4_enable_effect_order_witness :
    ((0 : Int) ≤ 2 ∧ (2 : Int) < ((8 : Nat) : Int) ∧
     ((mGet 8 extOn Phb.init).tp (Int.toNat 2)).outputBound = true ∧
     ((mGet 8 extOn Phb.init).tp (Int.toNat 2)).freqBound = true ∧
     ((mGet 8 extOn Phb.init).tp (Int.toNat 2)).dutyBound = true) ∧
    ((mTPEnable 8 (mGet 8 extOn Phb.init) 2).map Prod.snd =
      some [OutCmd.turnOn,
            OutCmd.updFreq ((mGet 8 extOn Phb.init).tp (Int.toNat 2)).freqVal,
            OutCmd.setLevel
              (((mGet 8 extOn Phb.init).tp (Int.toNat 2)).dutyVal / 100)] ∧
     (mTPEnable 8 (mGet 8 extOn Phb.init) 2).map
         (fun p => (p.1.tp (Int.toNat 2)).ledc) =
      some { isOn := true,
             freqHz := ((mGet 8 extOn Phb.init).tp (Int.toNat 2)).freqVal,
             level := ((mGet 8 extOn Phb.init).tp (Int.toNat 2)).dutyVal / 100 }) :=
  ⟨⟨by decide, by decide, by decide, by decide, by decide⟩,
   C4_enable_effect_order 8 (mGet 8 extOn Phb.init) 2 (by decide) (by decide)
     (by decide) (by decide) (by decide)⟩

/-- Claim C5: for every valid index whose frequency, switch and output slots
are bound, `setFrequency(idx, v)` always stores `v` (a subsequent
`getFrequency(idx)` returns `v`), and sends the frequency update to the
output driver exactly when the switch state is on. -/
theorem C5_setFrequency_stores_and_propagates (N : Nat) (s : Phb) (idx : Int)
    (v : ℚ) (h0 : 0 ≤ idx) (hN : idx < (N : Int))
    (hf : (s.tp idx.toNat).freqBound = true)
    (hsw : (s.tp idx.toNat).swBound = true)
    (ho : (s.tp idx.toNat).outputBound = true) :
    (mSetFrequency N s idx v).map (fun p => (mGetFrequency N p.1 idx, p.2)) =
      some (some v,
            if (s.tp idx.toNat).swState then [OutCmd.updFreq v] else []) := by
  have hg : ¬ (idx < 0 ∨ (N : Int) ≤ idx) := by omega
  unfold mSetFrequency
  by_cases hst : (s.tp idx.toNat).swState = true <;>
    simp [mGetFrequency, hg, hf, hsw, ho, hst, Phb.setTP]

/-- Witness for C5 at index 1 of a freshly initialized registry with the
switch on, storing frequency 123. -/
theorem C5_setFrequency_stores_and_propagates_witness :
    ((0 : Int) ≤ 1 ∧ (1 : Int) < ((8 : Nat) : Int) ∧
     ((mGet 8 extOn Phb.init).tp (Int.toNat 1)).freqBound = true ∧
     ((mGet 8 extOn Phb.init).tp (Int.toNat 1)).swBound = true ∧
     ((mGet 8 extOn Phb.init).tp (Int.toNat 1)).outputBound = true) ∧
    (mSetFrequency 8 (mGet 8 extOn Phb.init) 1 123).map
        (fun p => (mGetFrequency 8 p.1 1, p.2)) =
      some (some 123,
            if ((mGet 8 extOn Phb.init).tp (Int.toNat 1)).swState
            then [OutCmd.updFreq 123] else []) :=
  ⟨⟨by decide, by decide, by decide, by decide, by decide⟩,
   C5_setFrequency_stores_and_propagates 8 (mGet 8 extOn Phb.init) 1 123
     (by decide) (by decide) (by decide) (by decide) (by decide)⟩

/-- Claim C7: for every valid index whose output slot is bound,
`disable(idx)` issues exactly one command — output off — and changes nothing
else: the stored frequency and duty-cycle values, the switch and input
states, the driver's last applied frequency and level, the binding flags,
the initialized flag, and every other index are unchanged. -/
theorem C7_disable_only_turns_output_off (N : Nat) (s : Phb) (idx : Int)
    (h0 : 0 ≤ idx) (hN : idx < (N : Int))
    (ho : (s.tp idx.toNat).outputBound = true) :
    (mTPDisable N s idx).map Prod.snd = some [OutCmd.turnOff] ∧
    (mTPDisable N s idx).map (fun p => (p.1.tp idx.toNat).ledc.isOn) =
      some false ∧
    (mTPDisable N s idx).map (fun p =>
        ((p.1.tp idx.toNat).freqVal, (p.1.tp idx.toNat).dutyVal,
         (p.1.tp idx.toNat).ledc.freqHz, (p.1.tp idx.toNat).ledc.level,
         (p.1.tp idx.toNat).swState, (p.1.tp idx.toNat).inputState,
         (p.1.tp idx.toNat).flags, p.1.initialized)) =
      some ((s.tp idx.toNat).freqVal, (s.tp idx.toNat).dutyVal,
            (s.tp idx.toNat).ledc.freqHz, (s.tp idx.toNat).ledc.level,
            (s.tp idx.toNat).swState, (s.tp idx.toNat).inputState,
            (s.tp idx.toNat).flags, s.initialized) ∧
    ∀ j, j ≠ idx.toNat →
      (mTPDisable N s idx).map (fun p => p.1.tp j) = some (s.tp j) := by
  have hg : ¬ (idx < 0 ∨ (N : Int) ≤ idx) := by omega
  unfold mTPDisable
  rw [if_neg hg, if_pos ho]
  refine ⟨rfl, ?_, ?_, ?_⟩
  · simp only [Option.map_some', Option.some.injEq]
    rw [setTP_tp_same]
    rfl
  · simp only [Option.map_some', Option.some.injEq]
    rw [setTP_tp_same]
    rfl
  · intro j hj
    simp only [Option.map_some', Option.some.injEq]
    rw [setTP_tp_other _ _ _ _ hj]

/-- Witness for C7 at index 0 of a freshly initialized registry with the
switch on; the frame condition is checked at the other index 1. -/
theorem C7_disable_only_turns_output_off_witness :
    ((0 : Int) ≤ 0 ∧ (0 : Int) < ((8 : Nat) : Int) ∧
     ((mGet 8 extOn Phb.init).tp (Int.toNat 0)).outputBound = true) ∧
    (mTPDisable 8 (mGet 8 extOn Phb.init) 0).map Prod.snd =
      some [OutCmd.turnOff] ∧
    (mTPDisable 8 (mGet 8 extOn Phb.init) 0).map
        (fun p => (p.1.tp (Int.toNat 0)).ledc.isOn) = some false ∧
    (mTPDisable 8 (mGet 8 extOn Phb.init) 0).map (fun p => p.1.tp 1) =
      some ((mGet 8 extOn Phb.init).tp 1) :=
  ⟨⟨by decide, by decide, by decide⟩,
   (C7_disable_only_turns_output_off 8 (mGet 8 extOn Phb.init) 0 (by decide)
      (by decide) (by decide)).1,
   (C7_disable_only_turns_output_off 8 (mGet 8 extOn Phb.init) 0 (by decide)
      (by decide) (by decide)).2.1,
   (C7_disable_only_turns_output_off 8 (mGet 8 extOn Phb.init) 0 (by decide)
      (by decide) (by decide)).2.2.2 1 (by decide)⟩

/-- Claim C8: initialization is idempotent — a second `setup` (and a second
`mGet`) is a no-op producing exactly the state of the first — and after a
completed initialization no sequence of public operations ever changes the
binding table's pointer slots or resets the initialized flag. -/
theorem C8_initialization_idempotent (N : Nat) (ext : Nat → ExtTP) (s : Phb) :
    setup N ext (setup N ext s) = setup N ext s ∧
    mGet N ext (mGet N ext s) = mGet N ext s ∧
    ∀ (ops : List Op) (s₂ : Phb), run N ext ops (setup N ext s) = some s₂ →
      s₂.initialized = true ∧
      ∀ j, (s₂.tp j).flags = ((setup N ext s).tp j).flags := by
  refine ⟨setup_of_initialized N ext _ (setup_initialized N ext s),
          mGet_of_initialized N ext _ (mGet_initialized N ext s),
          fun ops s₂ h => run_frame N ext ops _ s₂ (setup_initialized N ext s) h⟩

/-- Witness for C8: the empty operation sequence on the freshly set-up
registry satisfies the reachability hypothesis. -/
theorem C8_initialization_idempotent_witness :
    run 8 extOff [] (setup 8 extOff Phb.init) =
      some (setup 8 extOff Phb.init) ∧
    (setup 8 extOff Phb.init).initialized = true :=
  ⟨rfl,
   ((C8_initialization_idempotent 8 extOff Phb.init).2.2 []
      (setup 8 extOff Phb.init) rfl).1⟩

/-- Claim C10: with `N ≤ 8`, in every state reachable by public operations
from the freshly initialized singleton (`mGet` on the default-constructed
instance), all five binding pointers are non-null at every index below `N`,
the initialized flag stays set, and no operation ever changes any binding
pointer slot. -/
theorem C10_bindings_nonnull_invariant (N : Nat) (ext : Nat → ExtTP)
    (ops : List Op) (s₂ : Phb) (hN : N ≤ 8)
    (hrun : run N ext ops (mGet N ext Phb.init) = some s₂) :
    s₂.initialized = true ∧
    (∀ i, i < N → (s₂.tp i).allBound = true) ∧
    (∀ j, (s₂.tp j).flags = ((mGet N ext Phb.init).tp j).flags) := by
  have hfr := run_frame N ext ops (mGet N ext Phb.init) s₂
    (mGet_initialized N ext Phb.init) hrun
  refine ⟨hfr.1, fun i hi => ?_, hfr.2⟩
  rw [allBound_congr _ _ (hfr.2 i)]
  exact mGet_init_allBound N ext hN i hi

/-- Witness for C10: one enable operation on the freshly initialized
8-test-point registry; the invariant is checked at index 0. -/
theorem C10_bindings_nonnull_invariant_witness :
    ((8 : Nat) ≤ 8 ∧
     run 8 extOn [Op.opEnable 0] (mGet 8 extOn Phb.init) =
       some ((mTPEnable 8 (mGet 8 extOn Phb.init) 0).elim Phb.init Prod.fst)) ∧
    (((mTPEnable 8 (mGet 8 extOn Phb.init) 0).elim Phb.init Prod.fst).initialized
        = true ∧
     ((((mTPEnable 8 (mGet 8 extOn Phb.init) 0).elim Phb.init Prod.fst).tp 0).allBound
        = true)) :=
  ⟨⟨by decide, by rfl⟩,
   (C10_bindings_nonnull_invariant 8 extOn [Op.opEnable 0] _ (by decide)
      (by rfl)).1,
   (C10_bindings_nonnull_invariant 8 extOn [Op.opEnable 0] _ (by decide)
      (by rfl)).2.1 0 (by decide)⟩

end PhbTest
